import Mathlib

/-!
Shallow embedding of `src/ai_detector.py` (the AI-detection scoring core of the
EssayWriter repository) and proofs of the specification claims about it.

Modelling conventions:
* A Python `str` is modelled as a `List Char`; witnesses apply the functions to
  `String.toList` of concrete literals.
* Python floats are modelled as exact rationals `ℚ`.  The three transcendental
  library functions the code calls (`math.sqrt`, `math.log2`, `2 ** x`) are
  collected in a `FloatModel` parameter; theorems that need facts about them
  (e.g. `math.sqrt x ≥ 0`) take those facts as hypotheses.
* Python's built-in `round(x, n)` rounds half to even; `roundHalfEven` /
  `roundTo` model that exactly on `ℚ`.
* Python raises `ZeroDivisionError` on a zero denominator; `ℚ` division totals
  it to `0`.  The only division whose denominator is not forced positive by the
  guards of the code is the repetition one; `repetition_of` models its Python
  (fallible) semantics with `Option`, and `repetition_raw` is the value it
  yields whenever the denominator is nonzero (which the preconditions of
  `calculate_perplexity_score` guarantee — proved below).
* Python's `\w` and `\s` character classes are modelled over the ASCII
  alphabet (`Char.isAlpha`, `Char.isDigit`, `_`, `Char.isWhitespace`), which is
  faithful on every input considered here.
-/

/-- `\w` of `re` (letters, digits, underscore), over ASCII. -/
def isWordChar (c : Char) : Bool := c.isAlpha || c.isDigit || c = '_'

/-- `\s` of `re` and the class used by `str.split()` / `str.strip()`. -/
def isSpaceChar (c : Char) : Bool := c.isWhitespace

/-- The sentence terminators `.`, `!`, `?` of the regex `[.!?]+`. -/
def isTerminator (c : Char) : Bool := c = '.' || c = '!' || c = '?'

/-- `text.strip()`: drop leading and trailing whitespace. -/
def pyStrip (text : List Char) : List Char :=
  ((text.dropWhile isSpaceChar).reverse.dropWhile isSpaceChar).reverse

/-- `re.sub(r'[^\w\s\.\!\?]', '', text.lower())`: lower-case, then delete every
character that is not a word character, whitespace or a terminator. -/
def normalizeText (text : List Char) : List Char :=
  (text.map Char.toLower).filter fun c => isWordChar c || isSpaceChar c || isTerminator c

/-- Split a character list at every character satisfying `p` (each such
character is a one-character delimiter; empty pieces are kept, as `re.split`
on a single-character class would). -/
def splitOnPred (p : Char → Bool) : List Char → List (List Char)
  | [] => [[]]
  | c :: cs =>
    if p c then [] :: splitOnPred p cs
    else
      match splitOnPred p cs with
      | [] => [[c]]
      | w :: ws => (c :: w) :: ws

/-- `text.split()`: split on whitespace, dropping empty pieces. -/
def wordsOf (text : List Char) : List (List Char) :=
  (splitOnPred isSpaceChar text).filter fun w => w ≠ []

/-- `[s.strip() for s in re.split(r'[.!?]+', text) if s.strip()]`.
Splitting on runs `[.!?]+` and then dropping pieces that strip to empty gives
the same list as splitting at every single terminator and dropping such
pieces (the extra pieces produced between two adjacent terminators are empty
and are dropped), so the split is modelled one character at a time. -/
def sentencesOf (text : List Char) : List (List Char) :=
  ((splitOnPred isTerminator text).map pyStrip).filter fun s => s ≠ []

/-- The three float library functions `calculate_perplexity_score` calls:
`math.sqrt`, `math.log2` and `2 ** x`, abstracted as rational functions. -/
structure FloatModel where
  sqrt : ℚ → ℚ
  log2 : ℚ → ℚ
  exp2 : ℚ → ℚ

/-- The `metrics` dictionary: fixed keys
burstiness / perplexity / diversity / repetition / start_diversity. -/
structure MetricSet where
  burstiness : ℚ
  perplexity : ℚ
  diversity : ℚ
  repetition : ℚ
  start_diversity : ℚ
deriving DecidableEq, Repr

/-- Result of `calculate_perplexity_score`: either `{"error": msg}` (carrying
nothing but the message) or the full result dictionary. -/
inductive DetectorResult where
  | error (msg : String)
  | ok (ai_probability human_probability : ℚ) (metrics : MetricSet)
      (analysis : List String)
deriving DecidableEq, Repr

def DetectorResult.isError : DetectorResult → Bool
  | .error _ => true
  | .ok _ _ _ _ => false

def DetectorResult.aiOf : DetectorResult → ℚ
  | .error _ => 0
  | .ok a _ _ _ => a

def DetectorResult.huOf : DetectorResult → ℚ
  | .error _ => 0
  | .ok _ h _ _ => h

def DetectorResult.metricsOf : DetectorResult → MetricSet
  | .error _ => ⟨0, 0, 0, 0, 0⟩
  | .ok _ _ m _ => m

def DetectorResult.analysisOf : DetectorResult → List String
  | .error _ => []
  | .ok _ _ _ a => a

/-- The floor of a rational, in the executable `num / den` form
(equal to `⌊x⌋`, see `ratFloor_eq`). -/
def ratFloor (x : ℚ) : ℤ := x.num / x.den

/-- `round` of Python on an exact rational: nearest integer, ties to even. -/
def roundHalfEven (x : ℚ) : ℤ :=
  if x - ratFloor x < 1 / 2 then ratFloor x
  else if 1 / 2 < x - ratFloor x then ratFloor x + 1
  else if ratFloor x % 2 = 0 then ratFloor x else ratFloor x + 1

/-- `round(x, k)` of Python on an exact rational. -/
def roundTo (k : ℕ) (x : ℚ) : ℚ :=
  (roundHalfEven (10 ^ k * x) : ℚ) / 10 ^ k

/-- `sentence_lengths = [len(s.split()) for s in sentences]`. -/
def sentence_lengths (sentences : List (List Char)) : List ℕ :=
  sentences.map fun s => (wordsOf s).length

/-- `avg_length = sum(sentence_lengths) / len(sentence_lengths)`. -/
def avg_length (sentences : List (List Char)) : ℚ :=
  ((sentence_lengths sentences).map fun l => (l : ℚ)).sum / (sentence_lengths sentences).length

/-- `variance = sum((l - avg_length) ** 2 for l in sentence_lengths) / len(sentence_lengths)`. -/
def length_variance (sentences : List (List Char)) : ℚ :=
  ((sentence_lengths sentences).map fun l => ((l : ℚ) - avg_length sentences) ^ 2).sum /
    (sentence_lengths sentences).length

/-- `burstiness = math.sqrt(variance) / avg_length if avg_length > 0 else 0`. -/
def burstiness_of (ops : FloatModel) (sentences : List (List Char)) : ℚ :=
  if 0 < avg_length sentences then ops.sqrt (length_variance sentences) / avg_length sentences
  else 0

/-- The entropy loop over `Counter(words).items()`: for each distinct word
(in first-occurrence order, as `Counter` iterates), subtract
`prob * log2(prob)` where `prob = count / total_words`. -/
def entropy_of (ops : FloatModel) (words : List (List Char)) : ℚ :=
  words.dedup.foldl
    (fun e w =>
      e - ((words.count w : ℚ) / words.length) * ops.log2 ((words.count w : ℚ) / words.length))
    0

/-- `perplexity = 2 ** entropy`. -/
def perplexity_of (ops : FloatModel) (words : List (List Char)) : ℚ :=
  ops.exp2 (entropy_of ops words)

/-- `diversity = len(set(words)) / total_words`. -/
def diversity_of (words : List (List Char)) : ℚ :=
  (words.dedup.length : ℚ) / words.length

/-- `bigrams = [(words[i], words[i+1]) for i in range(len(words)-1)]`. -/
def bigrams_of (words : List (List Char)) : List (List Char × List Char) :=
  words.zip words.tail

/-- The value of
`sum(1 for count in bigram_counts.values() if count > 1) / len(bigrams)`
whenever `len(bigrams) ≠ 0` (in `ℚ` the division is total; Python raises on a
zero denominator — see `repetition_of`). -/
def repetition_raw (words : List (List Char)) : ℚ :=
  (((bigrams_of words).dedup.filter fun bg => 1 < (bigrams_of words).count bg).length : ℚ) /
    (bigrams_of words).length

/-- The repetition extractor with Python's fallible-division semantics: on an
empty bigram list `len(bigrams)` is `0` and the division raises
`ZeroDivisionError`, modelled as `none`. -/
def repetition_of (words : List (List Char)) : Option ℚ :=
  if (bigrams_of words).length = 0 then none else some (repetition_raw words)

/-- `sentence_starts = [s.split()[0] if s.split() else '' for s in sentences]`. -/
def sentence_starts (sentences : List (List Char)) : List (List Char) :=
  sentences.map fun s => (wordsOf s).headD []

/-- `start_diversity = len(set(sentence_starts)) / len(sentences) if sentences else 0`. -/
def start_diversity_of (sentences : List (List Char)) : ℚ :=
  if sentences = [] then 0
  else ((sentence_starts sentences).dedup.length : ℚ) / sentences.length

/-- The `metrics` dictionary as assembled in lines 31–67 of the source
(unrounded values). -/
def rawMetrics (ops : FloatModel) (sentences words : List (List Char)) : MetricSet :=
  { burstiness := burstiness_of ops sentences
    perplexity := perplexity_of ops words
    diversity := diversity_of words
    repetition := repetition_raw words
    start_diversity := start_diversity_of sentences }

/-- Burstiness component of the score (lines 78–83). -/
def burstiness_points (b : ℚ) : ℚ :=
  if b < 3 / 10 then 40
  else if b < 6 / 10 then 25
  else if b < 1 then 10
  else 0

/-- Repetition component: `min(25, repetition_score * 100)` (line 86). -/
def repetition_points (r : ℚ) : ℚ :=
  min 25 (r * 100)

/-- Start-diversity component (lines 89–92). -/
def start_diversity_points (s : ℚ) : ℚ :=
  if s < 1 / 2 then 20
  else if s < 7 / 10 then 10
  else 0

/-- Perplexity component (lines 95–98): `20 < p < 80` and `10 < p < 150`. -/
def perplexity_points (p : ℚ) : ℚ :=
  if 20 < p ∧ p < 80 then 15
  else if 10 < p ∧ p < 150 then 8
  else 0

/-- `ai_score` accumulated over the four contributing signals, in source order
(`diversity` is read from no branch of the scorer). -/
def ai_score (m : MetricSet) : ℚ :=
  burstiness_points m.burstiness + repetition_points m.repetition +
    start_diversity_points m.start_diversity + perplexity_points m.perplexity

/-- `ai_probability = min(95, max(5, ai_score))` (line 101). -/
def clampScore (s : ℚ) : ℚ :=
  min 95 (max 5 s)

/-- `generate_analysis(ai_prob, metrics)` (lines 116–148): sequential appends
to an initially empty list. -/
def generate_analysis (ai_prob : ℚ) (m : MetricSet) : List String :=
  (((if 80 < ai_prob then
        ["Very likely AI-generated", "Text shows high uniformity and predictable patterns"]
      else if 60 < ai_prob then
        ["Likely AI-generated", "Some indicators of artificial generation present"]
      else if 40 < ai_prob then
        ["Mixed signals - could be AI or human", "Text shows both human and AI characteristics"]
      else if 20 < ai_prob then
        ["Likely human-written", "Shows good variation and natural patterns"]
      else
        ["Very likely human-written", "Strong indicators of human creativity and variation"]) ++
    (if m.burstiness < 3 / 10 then ["⚠️ Sentences are very uniform in length"]
      else if 1 < m.burstiness then ["✓ Good sentence length variation"]
      else [])) ++
   (if 1 / 10 < m.repetition then ["⚠️ High repetition in word patterns"] else [])) ++
  (if m.start_diversity < 1 / 2 then ["⚠️ Limited variety in sentence beginnings"] else [])

/-- The metrics dictionary of the returned result (lines 106–112): burstiness,
diversity, repetition, start_diversity rounded to 3 decimals, perplexity to 2. -/
def roundMetrics (m : MetricSet) : MetricSet :=
  { burstiness := roundTo 3 m.burstiness
    perplexity := roundTo 2 m.perplexity
    diversity := roundTo 3 m.diversity
    repetition := roundTo 3 m.repetition
    start_diversity := roundTo 3 m.start_diversity }

/-- `calculate_perplexity_score(text)` (lines 14–114).  `not text` is the
emptiness test of a Python string; the analysis is generated from the
unrounded clamped probability and the unrounded metrics, while the returned
probability and metric values are rounded. -/
def calculate_perplexity_score (ops : FloatModel) (text : List Char) : DetectorResult :=
  if text = [] ∨ (pyStrip text).length < 10 then .error "Text too short for analysis"
  else if (sentencesOf (normalizeText text)).length < 1 ∨ (wordsOf (normalizeText text)).length < 5 then
    .error "Text too short for reliable analysis"
  else
    .ok
      (roundTo 1 (clampScore (ai_score
        (rawMetrics ops (sentencesOf (normalizeText text)) (wordsOf (normalizeText text))))))
      (roundTo 1 (100 - clampScore (ai_score
        (rawMetrics ops (sentencesOf (normalizeText text)) (wordsOf (normalizeText text))))))
      (roundMetrics (rawMetrics ops (sentencesOf (normalizeText text)) (wordsOf (normalizeText text))))
      (generate_analysis
        (clampScore (ai_score
          (rawMetrics ops (sentencesOf (normalizeText text)) (wordsOf (normalizeText text)))))
        (rawMetrics ops (sentencesOf (normalizeText text)) (wordsOf (normalizeText text))))

/-- A concrete instantiation of the three float functions, used by witnesses
(the error path and the claims proved below never depend on the choice). -/
def trivialOps : FloatModel :=
  { sqrt := fun _ => 0, log2 := fun _ => 0, exp2 := fun _ => 1 }

/-! ### Facts about the rounding model -/

theorem ratFloor_eq (x : ℚ) : ratFloor x = ⌊x⌋ := Rat.floor_def.symm

theorem roundHalfEven_intCast (n : ℤ) : roundHalfEven (n : ℚ) = n := by
  have h : ratFloor (n : ℚ) = n := by rw [ratFloor_eq, Int.floor_intCast]
  unfold roundHalfEven
  rw [h]
  norm_num

/-- Reflecting `roundHalfEven` across an even integer: since ties go to even
and `k` is even, `round(k - y) = k - round(y)`. -/
theorem roundHalfEven_sub (k : ℤ) (hk : k % 2 = 0) (y : ℚ) :
    roundHalfEven ((k : ℚ) - y) = k - roundHalfEven y := by
  have h1 : (⌊y⌋ : ℚ) ≤ y := Int.floor_le y
  have h2 : y < ⌊y⌋ + 1 := Int.lt_floor_add_one y
  by_cases hzero : y = (⌊y⌋ : ℚ)
  · obtain ⟨n, hn⟩ : ∃ n : ℤ, y = (n : ℚ) := ⟨⌊y⌋, hzero⟩
    subst hn
    rw [show (k : ℚ) - (n : ℚ) = ((k - n : ℤ) : ℚ) by push_cast; ring,
      roundHalfEven_intCast, roundHalfEven_intCast]
  · have hfrac : 0 < y - (⌊y⌋ : ℚ) := by
      rcases lt_or_eq_of_le (sub_nonneg.mpr h1) with h | h
      · exact h
      · exact absurd (by linarith) hzero
    have hfloor2 : ⌊(k : ℚ) - y⌋ = k - ⌊y⌋ - 1 := by
      rw [Int.floor_eq_iff]
      constructor
      · push_cast
        linarith
      · push_cast
        linarith
    unfold roundHalfEven
    simp only [ratFloor_eq, hfloor2]
    push_cast
    split_ifs <;> first | omega | linarith

theorem roundHalfEven_eq_or (x : ℚ) :
    roundHalfEven x = ⌊x⌋ ∨ roundHalfEven x = ⌊x⌋ + 1 := by
  unfold roundHalfEven
  simp only [ratFloor_eq]
  split_ifs <;> simp

theorem roundHalfEven_le_half (x : ℚ) (h : roundHalfEven x = ⌊x⌋) : x - ⌊x⌋ ≤ 1 / 2 := by
  unfold roundHalfEven at h
  simp only [ratFloor_eq] at h
  split_ifs at h with h1 h2 h3 <;> first | linarith | omega

theorem roundHalfEven_half_le (x : ℚ) (h : roundHalfEven x = ⌊x⌋ + 1) : 1 / 2 ≤ x - ⌊x⌋ := by
  unfold roundHalfEven at h
  simp only [ratFloor_eq] at h
  split_ifs at h with h1 h2 h3 <;> first | linarith | omega

theorem roundHalfEven_mono {x y : ℚ} (h : x ≤ y) : roundHalfEven x ≤ roundHalfEven y := by
  have hf : ⌊x⌋ ≤ ⌊y⌋ := Int.floor_mono h
  rcases roundHalfEven_eq_or x with hx | hx <;> rcases roundHalfEven_eq_or y with hy | hy
  · omega
  · omega
  · by_cases heq : ⌊x⌋ = ⌊y⌋
    · have hh1 := roundHalfEven_half_le x hx
      have hh2 := roundHalfEven_le_half y hy
      have hc : (⌊x⌋ : ℚ) = (⌊y⌋ : ℚ) := by rw [heq]
      have hxy : x = y := le_antisymm h (by linarith)
      rw [hxy] at hx
      omega
    · omega
  · omega

theorem roundTo_mono (k : ℕ) {x y : ℚ} (h : x ≤ y) : roundTo k x ≤ roundTo k y := by
  unfold roundTo
  have h10 : (0 : ℚ) < 10 ^ k := by positivity
  have hm := roundHalfEven_mono (mul_le_mul_of_nonneg_left h (le_of_lt h10))
  have h2 : ((roundHalfEven (10 ^ k * x) : ℤ) : ℚ) ≤ ((roundHalfEven (10 ^ k * y) : ℤ) : ℚ) := by
    exact_mod_cast hm
  exact (div_le_div_iff_of_pos_right h10).mpr h2

/-- `round(100 - y, 1) = 100 - round(y, 1)` (`1000` is even, so ties agree). -/
theorem roundTo_one_sub_100 (y : ℚ) : roundTo 1 (100 - y) = 100 - roundTo 1 y := by
  unfold roundTo
  have hr : (10 : ℚ) ^ 1 * (100 - y) = ((1000 : ℤ) : ℚ) - 10 ^ 1 * y := by push_cast; ring
  rw [hr, roundHalfEven_sub 1000 (by norm_num)]
  push_cast
  ring

/-- `roundTo 1` fixes every multiple of `1/10`. -/
theorem roundTo_one_int_div (m : ℤ) : roundTo 1 ((m : ℚ) / 10) = (m : ℚ) / 10 := by
  unfold roundTo
  have hr : (10 : ℚ) ^ 1 * ((m : ℚ) / 10) = (m : ℚ) := by
    rw [pow_one]
    field_simp
  rw [hr, roundHalfEven_intCast, pow_one]

theorem roundTo_one_idem (x : ℚ) : roundTo 1 (roundTo 1 x) = roundTo 1 x := by
  have hr : roundTo 1 x = ((roundHalfEven (10 ^ 1 * x) : ℤ) : ℚ) / 10 := by
    unfold roundTo
    norm_num
  rw [hr, roundTo_one_int_div]

theorem clampScore_le (s : ℚ) : 5 ≤ clampScore s ∧ clampScore s ≤ 95 :=
  ⟨le_min (by norm_num) (le_max_left 5 s), min_le_left 95 _⟩

/-! ### Claim C2: the two error outcomes, their conditions and their order -/

/-- C2: `calculate_perplexity_score` returns `{"error": "Text too short for
analysis"}` iff the stripped input is shorter than 10 characters; it returns
`{"error": "Text too short for reliable analysis"}` iff that first check
passes and the normalized text has fewer than 1 sentence or fewer than 5
words; no other error message is possible; and an error result excludes an
`ok` result (so no metrics, probabilities or analysis accompany an error). -/
theorem error_cases_characterization (ops : FloatModel) (text : List Char) :
    ((calculate_perplexity_score ops text = .error "Text too short for analysis") ↔
      (pyStrip text).length < 10) ∧
    ((calculate_perplexity_score ops text = .error "Text too short for reliable analysis") ↔
      (10 ≤ (pyStrip text).length ∧
        ((sentencesOf (normalizeText text)).length < 1 ∨
          (wordsOf (normalizeText text)).length < 5))) ∧
    (∀ e, calculate_perplexity_score ops text = .error e →
      e = "Text too short for analysis" ∨ e = "Text too short for reliable analysis") ∧
    (∀ e a h m an, calculate_perplexity_score ops text = .error e →
      calculate_perplexity_score ops text ≠ .ok a h m an) := by
  have hshort : (text = [] ∨ (pyStrip text).length < 10) ↔ (pyStrip text).length < 10 := by
    constructor
    · rintro (he | hl)
      · subst he
        decide
      · exact hl
    · exact Or.inr
  unfold calculate_perplexity_score
  split_ifs with h1 h2
  · refine ⟨⟨fun _ => hshort.mp h1, fun _ => rfl⟩, ⟨fun he => ?_, fun hr => ?_⟩, ?_, ?_⟩
    · exact absurd (DetectorResult.error.inj he) (by decide)
    · exact absurd (hshort.mp h1) (by omega)
    · intro e he
      exact Or.inl (DetectorResult.error.inj he).symm
    · intro e a h m an _ hcon
      exact DetectorResult.noConfusion hcon
  · refine ⟨⟨fun he => ?_, fun hl => ?_⟩, ⟨fun _ => ⟨?_, h2⟩, fun _ => rfl⟩, ?_, ?_⟩
    · exact absurd (DetectorResult.error.inj he) (by decide)
    · exact absurd (hshort.mpr hl) h1
    · rcases Nat.lt_or_ge (pyStrip text).length 10 with hl | hg
      · exact absurd (hshort.mpr hl) h1
      · exact hg
    · intro e he
      exact Or.inr (DetectorResult.error.inj he).symm
    · intro e a h m an _ hcon
      exact DetectorResult.noConfusion hcon
  · refine ⟨⟨fun he => ?_, fun hl => ?_⟩, ⟨fun he => ?_, fun hr => ?_⟩, ?_, ?_⟩
    · exact he.elim
    · exact absurd (hshort.mpr hl) h1
    · exact he.elim
    · exact absurd hr.2 h2
    · intro e he
      exact he.elim
    · intro e a h m an he
      exact he.elim

/-! ### Claim C3: the zero-bigram case of the repetition metric -/

/-- C3 counterexample: on a single-word input (fewer than 2 words, empty
bigram list) the repetition extractor of line 61 does not take the value `0`:
the unguarded division `... / len(bigrams)` has a zero denominator and Python
raises `ZeroDivisionError` (modelled as `none`), so no value — in particular
not `0` — is produced. -/
theorem repetition_no_zero_convention :
    repetition_of (wordsOf (normalizeText "hi".toList)) = none ∧
      repetition_of (wordsOf (normalizeText "hi".toList)) ≠ some 0 := by
  constructor
  · decide
  · decide

/-- C3 amended: the code has no zero-bigram guard, but a zero denominator
cannot occur in the pipeline: whenever the word sequence has fewer than 2
words, `calculate_perplexity_score` stops with an error before the repetition
division is reached. -/
theorem few_words_never_reach_repetition (ops : FloatModel) (text : List Char)
    (h : (wordsOf (normalizeText text)).length < 2) :
    (calculate_perplexity_score ops text).isError = true := by
  unfold calculate_perplexity_score
  split_ifs with h1 h2
  · rfl
  · rfl
  · exfalso
    push_neg at h2
    omega

theorem few_words_never_reach_repetition_witness :
    (calculate_perplexity_score trivialOps "hi".toList).isError = true :=
  few_words_never_reach_repetition trivialOps "hi".toList (by decide)

/-! ### Claim C10: five words do not guarantee a sentence -/

/-- C10: the input `"... ... ... ... ..."` strips to length ≥ 10 and splits
into 5 whitespace-delimited words, yet has sentence count 0 (every piece of
the terminator split is whitespace and is discarded), so
`calculate_perplexity_score` returns the reliable-analysis error. -/
theorem five_words_zero_sentences (ops : FloatModel) :
    10 ≤ (pyStrip "... ... ... ... ...".toList).length ∧
    5 ≤ (wordsOf (normalizeText "... ... ... ... ...".toList)).length ∧
    (sentencesOf (normalizeText "... ... ... ... ...".toList)).length = 0 ∧
    calculate_perplexity_score ops "... ... ... ... ...".toList =
      .error "Text too short for reliable analysis" := by
  refine ⟨by decide, by decide, by decide, ?_⟩
  unfold calculate_perplexity_score
  rw [if_neg (by decide), if_pos (by decide)]

/-! ### Claim C4: the literal point brackets of the scorer -/

/-- C4: the scorer's points follow the tabulated half-open brackets: the
`elif` chains make each bracket carry its lower bound (in particular
burstiness exactly `0.3` falls in the `+25` bracket, not `+40`), the
perplexity brackets are the strict two-sided ones, and the repetition
contribution is the possibly fractional `min(25, repetition*100)`. -/
theorem scorer_bracket_table (b s p r : ℚ) :
    (b < 3 / 10 → burstiness_points b = 40) ∧
    (3 / 10 ≤ b ∧ b < 6 / 10 → burstiness_points b = 25) ∧
    (6 / 10 ≤ b ∧ b < 1 → burstiness_points b = 10) ∧
    (1 ≤ b → burstiness_points b = 0) ∧
    (s < 1 / 2 → start_diversity_points s = 20) ∧
    (1 / 2 ≤ s ∧ s < 7 / 10 → start_diversity_points s = 10) ∧
    (7 / 10 ≤ s → start_diversity_points s = 0) ∧
    (20 < p ∧ p < 80 → perplexity_points p = 15) ∧
    (¬(20 < p ∧ p < 80) → 10 < p ∧ p < 150 → perplexity_points p = 8) ∧
    (¬(20 < p ∧ p < 80) → ¬(10 < p ∧ p < 150) → perplexity_points p = 0) ∧
    repetition_points r = min 25 (r * 100) := by
  refine ⟨fun h => ?_, fun h => ?_, fun h => ?_, fun h => ?_, fun h => ?_, fun h => ?_,
    fun h => ?_, fun h => ?_, fun h1 h2 => ?_, fun h1 h2 => ?_, rfl⟩
  · unfold burstiness_points
    rw [if_pos h]
  · unfold burstiness_points
    rw [if_neg (by linarith [h.1]), if_pos h.2]
  · unfold burstiness_points
    rw [if_neg (by linarith [h.1]), if_neg (by linarith [h.1]), if_pos h.2]
  · unfold burstiness_points
    rw [if_neg (by linarith), if_neg (by linarith), if_neg (by linarith)]
  · unfold start_diversity_points
    rw [if_pos h]
  · unfold start_diversity_points
    rw [if_neg (by linarith [h.1]), if_pos h.2]
  · unfold start_diversity_points
    rw [if_neg (by linarith), if_neg (by linarith)]
  · unfold perplexity_points
    rw [if_pos h]
  · unfold perplexity_points
    rw [if_neg h1, if_pos h2]
  · unfold perplexity_points
    rw [if_neg h1, if_neg h2]

theorem scorer_bracket_table_witness : burstiness_points (3 / 10) = 25 :=
  (scorer_bracket_table (3 / 10) 0 0 0).2.1
    (by constructor <;> with_unfolding_all decide)

/-! ### Claim C9: the burstiness contribution is antitone -/

/-- C9: lower burstiness never yields fewer burstiness points: for
`b1 ≤ b2` the bracket of `b1` awards at least the points of the bracket of
`b2`, so equalizing sentence lengths (driving burstiness down) cannot
decrease this contribution to the score. -/
theorem burstiness_points_antitone (b1 b2 : ℚ) (h : b1 ≤ b2) :
    burstiness_points b2 ≤ burstiness_points b1 := by
  unfold burstiness_points
  split_ifs <;> linarith

theorem burstiness_points_antitone_witness :
    burstiness_points 1 ≤ burstiness_points 0 :=
  burstiness_points_antitone 0 1 zero_le_one

/-! ### Bounds on the accumulated score -/

theorem burstiness_points_le (b : ℚ) : 0 ≤ burstiness_points b ∧ burstiness_points b ≤ 40 := by
  unfold burstiness_points
  split_ifs <;> norm_num

theorem start_diversity_points_le (s : ℚ) :
    0 ≤ start_diversity_points s ∧ start_diversity_points s ≤ 20 := by
  unfold start_diversity_points
  split_ifs <;> norm_num

theorem perplexity_points_le (p : ℚ) :
    0 ≤ perplexity_points p ∧ perplexity_points p ≤ 15 := by
  unfold perplexity_points
  split_ifs <;> norm_num

theorem ai_score_le_100 (m : MetricSet) : ai_score m ≤ 100 := by
  have h1 := burstiness_points_le m.burstiness
  have h2 := start_diversity_points_le m.start_diversity
  have h3 := perplexity_points_le m.perplexity
  have h4 : repetition_points m.repetition ≤ 25 := min_le_left _ _
  unfold ai_score
  linarith

theorem roundTo_one_five : roundTo 1 (5 : ℚ) = 5 := by with_unfolding_all decide

theorem roundTo_one_ninetyfive : roundTo 1 (95 : ℚ) = 95 := by with_unfolding_all decide

theorem roundTo_clamp_bounds (s : ℚ) :
    5 ≤ roundTo 1 (clampScore s) ∧ roundTo 1 (clampScore s) ≤ 95 := by
  obtain ⟨hl, hr⟩ := clampScore_le s
  constructor
  · have h := roundTo_mono 1 hl
    rwa [roundTo_one_five] at h
  · have h := roundTo_mono 1 hr
    rwa [roundTo_one_ninetyfive] at h

/-! ### Claim C5: the returned probability is the clamp, inside [5, 95] -/

/-- C5: on every non-error result the returned `ai_probability` (the clamped
raw score, rounded to one decimal) lies in the closed interval `[5, 95]`, and
the raw accumulated `ai_score` never exceeds the additive budget of 100 on
any metric set. -/
theorem ai_probability_in_range (ops : FloatModel) (text : List Char) (m : MetricSet)
    (hok : (calculate_perplexity_score ops text).isError = false) :
    5 ≤ (calculate_perplexity_score ops text).aiOf ∧
      (calculate_perplexity_score ops text).aiOf ≤ 95 ∧
      ai_score m ≤ 100 := by
  unfold calculate_perplexity_score at hok ⊢
  split_ifs at hok ⊢
  · simp [DetectorResult.isError] at hok
  · simp [DetectorResult.isError] at hok
  · obtain ⟨h5, h95⟩ := roundTo_clamp_bounds (ai_score
      (rawMetrics ops (sentencesOf (normalizeText text)) (wordsOf (normalizeText text))))
    exact ⟨h5, h95, ai_score_le_100 m⟩

theorem ai_probability_in_range_witness :
    5 ≤ (calculate_perplexity_score trivialOps "the cat sat. the dog ran.".toList).aiOf ∧
      (calculate_perplexity_score trivialOps "the cat sat. the dog ran.".toList).aiOf ≤ 95 ∧
      ai_score ⟨0, 1, 1, 0, 1⟩ ≤ 100 :=
  ai_probability_in_range trivialOps "the cat sat. the dog ran.".toList ⟨0, 1, 1, 0, 1⟩
    (by decide)

/-! ### Claim C1: the returned pair of probabilities -/

/-- C1: on every non-error result, `human_probability` equals
`round(100 - ai_probability, 1)` computed from the already-rounded
`ai_probability`, and the two returned values sum to exactly 100. -/
theorem probabilities_sum_to_100 (ops : FloatModel) (text : List Char)
    (hok : (calculate_perplexity_score ops text).isError = false) :
    (calculate_perplexity_score ops text).huOf =
      roundTo 1 (100 - (calculate_perplexity_score ops text).aiOf) ∧
    (calculate_perplexity_score ops text).aiOf +
      (calculate_perplexity_score ops text).huOf = 100 := by
  unfold calculate_perplexity_score at hok ⊢
  split_ifs at hok ⊢
  · simp [DetectorResult.isError] at hok
  · simp [DetectorResult.isError] at hok
  · simp only [DetectorResult.aiOf, DetectorResult.huOf]
    constructor
    · rw [roundTo_one_sub_100, roundTo_one_sub_100, roundTo_one_idem]
    · rw [roundTo_one_sub_100]
      ring

theorem probabilities_sum_to_100_witness :
    (calculate_perplexity_score trivialOps "the cat sat. the dog ran.".toList).huOf =
      roundTo 1 (100 -
        (calculate_perplexity_score trivialOps "the cat sat. the dog ran.".toList).aiOf) ∧
    (calculate_perplexity_score trivialOps "the cat sat. the dog ran.".toList).aiOf +
      (calculate_perplexity_score trivialOps "the cat sat. the dog ran.".toList).huOf = 100 :=
  probabilities_sum_to_100 trivialOps "the cat sat. the dog ran.".toList (by decide)

/-! ### Bounds on the extracted metrics -/

theorem length_variance_nonneg (sentences : List (List Char)) :
    0 ≤ length_variance sentences := by
  unfold length_variance
  apply div_nonneg
  · apply List.sum_nonneg
    intro x hx
    obtain ⟨l, _, rfl⟩ := List.mem_map.mp hx
    positivity
  · positivity

theorem burstiness_of_nonneg (ops : FloatModel) (sentences : List (List Char))
    (hsqrt : ∀ x, 0 ≤ x → 0 ≤ ops.sqrt x) : 0 ≤ burstiness_of ops sentences := by
  unfold burstiness_of
  split_ifs with h
  · exact div_nonneg (hsqrt _ (length_variance_nonneg sentences)) (le_of_lt h)
  · exact le_refl 0

theorem diversity_of_nonneg (words : List (List Char)) : 0 ≤ diversity_of words :=
  div_nonneg (by positivity) (by positivity)

theorem diversity_of_le_one (words : List (List Char)) : diversity_of words ≤ 1 := by
  unfold diversity_of
  by_cases h : (words.length : ℚ) = 0
  · rw [h, div_zero]
    norm_num
  · rw [div_le_one (lt_of_le_of_ne (by positivity) (Ne.symm h))]
    exact_mod_cast List.Sublist.length_le (List.dedup_sublist words)

theorem repetition_raw_nonneg (words : List (List Char)) : 0 ≤ repetition_raw words :=
  div_nonneg (by positivity) (by positivity)

theorem start_diversity_of_nonneg (sentences : List (List Char)) :
    0 ≤ start_diversity_of sentences := by
  unfold start_diversity_of
  split_ifs
  · exact le_refl 0
  · exact div_nonneg (by positivity) (by positivity)

theorem start_diversity_of_le_one (sentences : List (List Char)) :
    start_diversity_of sentences ≤ 1 := by
  unfold start_diversity_of
  split_ifs with h
  · norm_num
  · rw [div_le_one (by exact_mod_cast List.length_pos.mpr h)]
    have h1 : (sentence_starts sentences).dedup.length ≤ (sentence_starts sentences).length :=
      List.Sublist.length_le (List.dedup_sublist _)
    have h2 : (sentence_starts sentences).length = sentences.length := List.length_map _ _
    exact_mod_cast h2 ▸ h1

theorem roundTo_nonneg (k : ℕ) {x : ℚ} (h : 0 ≤ x) : 0 ≤ roundTo k x := by
  have h0 : roundTo k 0 = 0 := by
    unfold roundTo
    rw [mul_zero, show (0 : ℚ) = ((0 : ℤ) : ℚ) from by norm_num, roundHalfEven_intCast]
    norm_num
  have hm := roundTo_mono k h
  rwa [h0] at hm

theorem roundTo_le_one (k : ℕ) {x : ℚ} (h : x ≤ 1) : roundTo k x ≤ 1 := by
  have h1 : roundTo k 1 = 1 := by
    unfold roundTo
    rw [mul_one, show ((10 : ℚ) ^ k) = (((10 ^ k : ℤ)) : ℚ) from by push_cast; ring,
      roundHalfEven_intCast, div_self (by positivity)]
  have hm := roundTo_mono k h
  rwa [h1] at hm

/-- The bounds claim C8 states for the returned metrics dictionary:
all five values non-negative (hence finite, being rationals), and
`diversity` and `start_diversity` at most 1. -/
def MetricBounds (m : MetricSet) : Prop :=
  0 ≤ m.burstiness ∧ 0 ≤ m.perplexity ∧
    0 ≤ m.diversity ∧ m.diversity ≤ 1 ∧
    0 ≤ m.repetition ∧
    0 ≤ m.start_diversity ∧ m.start_diversity ≤ 1

/-! ### Claim C8: the returned metrics are finite, non-negative and bounded -/

/-- C8: on every non-error result, all five returned metric values (which are
the rounded ones) are non-negative — and finite, every `ℚ` being finite —
and `diversity` and `start_diversity` are at most 1.  The two facts assumed
about the float library are `math.sqrt x ≥ 0` for `x ≥ 0` and `2 ** x ≥ 0`. -/
theorem returned_metrics_bounded (ops : FloatModel) (text : List Char)
    (hsqrt : ∀ x, 0 ≤ x → 0 ≤ ops.sqrt x) (hexp : ∀ x, 0 ≤ ops.exp2 x)
    (hok : (calculate_perplexity_score ops text).isError = false) :
    MetricBounds (calculate_perplexity_score ops text).metricsOf := by
  unfold calculate_perplexity_score at hok ⊢
  split_ifs at hok ⊢ with h1 h2
  · simp [DetectorResult.isError] at hok
  · simp [DetectorResult.isError] at hok
  · simp only [DetectorResult.metricsOf]
    unfold MetricBounds roundMetrics rawMetrics
    refine ⟨roundTo_nonneg 3 ?_, roundTo_nonneg 2 ?_, roundTo_nonneg 3 ?_, roundTo_le_one 3 ?_,
      roundTo_nonneg 3 ?_, roundTo_nonneg 3 ?_, roundTo_le_one 3 ?_⟩
    · exact burstiness_of_nonneg ops _ hsqrt
    · exact hexp _
    · exact diversity_of_nonneg _
    · exact diversity_of_le_one _
    · exact repetition_raw_nonneg _
    · exact start_diversity_of_nonneg _
    · exact start_diversity_of_le_one _

theorem returned_metrics_bounded_witness :
    MetricBounds (calculate_perplexity_score trivialOps
      "the cat sat. the dog ran.".toList).metricsOf :=
  returned_metrics_bounded trivialOps "the cat sat. the dog ran.".toList
    (fun _ _ => le_refl 0) (fun _ => zero_le_one) (by decide)

/-! ### Claim C6: the diversity metric does not influence the score -/

/-- C6: two metric sets that agree on burstiness, repetition, start_diversity
and perplexity get the same raw score and the same clamped-and-rounded
`ai_probability`, whatever their diversity values; yet diversity is computed
from the words and reported in the returned metrics of every non-error
result. -/
theorem diversity_has_no_influence (ops : FloatModel) (text : List Char) (m1 m2 : MetricSet)
    (hb : m1.burstiness = m2.burstiness) (hr : m1.repetition = m2.repetition)
    (hs : m1.start_diversity = m2.start_diversity) (hp : m1.perplexity = m2.perplexity)
    (hok : (calculate_perplexity_score ops text).isError = false) :
    ai_score m1 = ai_score m2 ∧
    roundTo 1 (clampScore (ai_score m1)) = roundTo 1 (clampScore (ai_score m2)) ∧
    (calculate_perplexity_score ops text).metricsOf.diversity =
      roundTo 3 (diversity_of (wordsOf (normalizeText text))) := by
  have h1 : ai_score m1 = ai_score m2 := by
    unfold ai_score
    rw [hb, hr, hs, hp]
  refine ⟨h1, by rw [h1], ?_⟩
  unfold calculate_perplexity_score at hok ⊢
  split_ifs at hok ⊢
  · simp [DetectorResult.isError] at hok
  · simp [DetectorResult.isError] at hok
  · simp [DetectorResult.metricsOf, roundMetrics, rawMetrics]

theorem diversity_has_no_influence_witness :
    ai_score ⟨1 / 2, 50, 1 / 4, 1 / 20, 3 / 5⟩ = ai_score ⟨1 / 2, 50, 9 / 10, 1 / 20, 3 / 5⟩ ∧
    roundTo 1 (clampScore (ai_score ⟨1 / 2, 50, 1 / 4, 1 / 20, 3 / 5⟩)) =
      roundTo 1 (clampScore (ai_score ⟨1 / 2, 50, 9 / 10, 1 / 20, 3 / 5⟩)) ∧
    (calculate_perplexity_score trivialOps
        "the cat sat. the dog ran.".toList).metricsOf.diversity =
      roundTo 3 (diversity_of (wordsOf (normalizeText "the cat sat. the dog ran.".toList))) :=
  diversity_has_no_influence trivialOps "the cat sat. the dog ran.".toList
    ⟨1 / 2, 50, 1 / 4, 1 / 20, 3 / 5⟩ ⟨1 / 2, 50, 9 / 10, 1 / 20, 3 / 5⟩
    rfl rfl rfl rfl (by decide)

/-! ### Claim C7: the analysis strings and their fixed order -/

/-- The headline pair of §4.4 of the spec: the single bracket matched by the
thresholds on `ai_probability` (`>80`, then `>60`, then `>40`, then `>20`,
else the lowest bracket), both strings in the stated order. -/
def headlineStrings (p : ℚ) : List String :=
  if 80 < p then
    ["Very likely AI-generated", "Text shows high uniformity and predictable patterns"]
  else if 60 < p then
    ["Likely AI-generated", "Some indicators of artificial generation present"]
  else if 40 < p then
    ["Mixed signals - could be AI or human", "Text shows both human and AI characteristics"]
  else if 20 < p then
    ["Likely human-written", "Shows good variation and natural patterns"]
  else
    ["Very likely human-written", "Strong indicators of human creativity and variation"]

/-- §4.4: a uniform-sentence warning if `burstiness < 0.3`, else a
good-variation confirmation if `burstiness > 1.0`. -/
def burstinessNote (b : ℚ) : List String :=
  if b < 3 / 10 then ["⚠️ Sentences are very uniform in length"]
  else if 1 < b then ["✓ Good sentence length variation"]
  else []

/-- §4.4: a high-repetition warning if `repetition > 0.1`. -/
def repetitionNote (r : ℚ) : List String :=
  if 1 / 10 < r then ["⚠️ High repetition in word patterns"] else []

/-- §4.4: a limited-opener-variety warning if `start_diversity < 0.5`. -/
def startNote (s : ℚ) : List String :=
  if s < 1 / 2 then ["⚠️ Limited variety in sentence beginnings"] else []

/-- C7: `generate_analysis` produces exactly the headline pair of the matched
bracket followed by the three conditional observations, in that fixed order;
being a pure function of `ai_prob` and the metrics, its output is fully
determined by them (no randomness). -/
theorem analysis_order (p : ℚ) (m : MetricSet) :
    generate_analysis p m =
      headlineStrings p ++ burstinessNote m.burstiness ++
        repetitionNote m.repetition ++ startNote m.start_diversity := by
  unfold generate_analysis headlineStrings burstinessNote repetitionNote startNote
  split_ifs <;> simp

theorem error_cases_characterization_witness :
    calculate_perplexity_score trivialOps "short".toList =
      .error "Text too short for analysis" :=
  (error_cases_characterization trivialOps "short".toList).1.mpr (by decide)
